import Mathlib

/-!
Shallow embedding of the bedrock-vector-search repository
(src/app/main.py and src/lambda/process_document/index.py),
with theorems settling the frozen claims about it.

Text is modelled as `List Char` (Python `str`), machine integers as `Int`
(Python `int`), and calls to external services (Bedrock, OpenSearch, S3)
as explicit oracle parameters recording each call's outcome.
-/

/-- Python whitespace test used by `str.strip()` (space, tab, newline,
carriage return, vertical tab, form feed). -/
def isSpace (c : Char) : Bool :=
  c == ' ' || c == '\t' || c == '\n' || c == '\r' || c.toNat == 11 || c.toNat == 12

/-- Python `str.strip()`: drop leading and trailing whitespace. -/
def strip (s : List Char) : List Char :=
  ((s.dropWhile isSpace).reverse.dropWhile isSpace).reverse

/-- Python slice-index adjustment: a negative index counts from the end,
then the result is clamped into `[0, n]`. -/
def pyAdj (n : Nat) (i : Int) : Nat :=
  if i < 0 then (i + n).toNat else min i.toNat n

/-- Python `s[i:j]` string slicing on `List Char`. -/
def pySlice (s : List Char) (i j : Int) : List Char :=
  (s.take (pyAdj s.length j)).drop (pyAdj s.length i)

/-- Python `s.rfind(c, i, j)`: index of the last occurrence of `c` in the
adjusted range `[i, j)`, or `-1` when there is none. -/
def pyRfind (s : List Char) (c : Char) (i j : Int) : Int :=
  ((List.range s.length).filter
    (fun k => decide (pyAdj s.length i ≤ k) && decide (k < pyAdj s.length j)
      && decide (s.get? k = some c))).foldl (fun _ k => (k : Int)) (-1)

/-- One window's right edge in `chunk_text` (src/lambda/process_document/index.py):
`end = start + chunk_size`, then, if `end` is not past the end of the text,
snap back to just after the last period when it lies within the final 100
characters of the window. -/
def chunkEnd (text : List Char) (cs start : Int) : Int :=
  if start + cs < (text.length : Int) then
    if pyRfind text '.' start (start + cs) > start + cs - 100 then
      pyRfind text '.' start (start + cs) + 1
    else start + cs
  else start + cs

/-- The next window start used by the `chunk_text` loop: `start = end - overlap`. -/
def nextStart (text : List Char) (cs ov start : Int) : Int :=
  chunkEnd text cs start - ov

/-- Append a stripped chunk unless it is empty (`if chunk: chunks.append(chunk)`). -/
def chunkAppend (acc : List (List Char)) (ck : List Char) : List (List Char) :=
  if ck = [] then acc else acc ++ [ck]

/-- The `while start < len(text)` loop of `chunk_text`, with explicit fuel:
`none` means the fuel ran out (the Python loop would still be running). -/
def chunkLoop (text : List Char) (cs ov : Int) :
    Nat → Int → List (List Char) → Option (List (List Char))
  | 0, _, _ => none
  | fuel + 1, start, acc =>
    if start < (text.length : Int) then
      if (text.length : Int) ≤ chunkEnd text cs start - ov then
        some (chunkAppend acc (strip (pySlice text start (chunkEnd text cs start))))
      else
        chunkLoop text cs ov fuel (chunkEnd text cs start - ov)
          (chunkAppend acc (strip (pySlice text start (chunkEnd text cs start))))
    else some acc

/-- `chunk_text(text, chunk_size, overlap)` from
src/lambda/process_document/index.py.  A text no longer than `chunk_size`
is returned as a single chunk, unstripped; otherwise the sliding-window
loop runs, given fuel `length + 1` (enough whenever the loop makes
forward progress; `none` reports that the Python loop does not finish
within that many iterations). -/
def chunk_text (text : List Char) (cs ov : Int) : Option (List (List Char)) :=
  if (text.length : Int) ≤ cs then some [text]
  else chunkLoop text cs ov (text.length + 1) 0 []

/-- Termination of `chunk_text` on a given input: either the short-text
path is taken, or some finite amount of fuel lets the loop finish. -/
def chunkTerminates (text : List Char) (cs ov : Int) : Prop :=
  (text.length : Int) ≤ cs ∨ ∃ fuel, (chunkLoop text cs ov fuel 0 []).isSome

/-- Outcome of one `bedrock_client.invoke_model` call for one model id:
the call raised, or it succeeded and its response body parsed to the
given `embedding` field (`[]` when the field is absent). -/
inductive CallResult where
  | err : CallResult
  | ok : List Int → CallResult
  deriving DecidableEq

/-- The fixed ordered candidate model list, identical in both source files. -/
def models_to_try : List String :=
  ["amazon.titan-embed-text-v1", "amazon.titan-embed-text-v2:0", "cohere.embed-english-v3"]

/-- The shared fallback loop: the parsed body of the first model whose
call succeeds, or `none` when every candidate's call fails. -/
def tryModels (call : String → CallResult) : List String → Option (List Int)
  | [] => none
  | m :: ms =>
    match call m with
    | CallResult.ok v => some v
    | CallResult.err => tryModels call ms

/-- `get_embedding` from src/app/main.py: returns the first successful
call's embedding field as-is (even when empty); when every candidate's
call fails, the last error is re-raised and wrapped into an HTTP 500
(`Except.error`). -/
def get_embedding (call : String → CallResult) : Except Unit (List Int) :=
  match tryModels call models_to_try with
  | some v => Except.ok v
  | none => Except.error ()

/-- `generate_embedding` from src/lambda/process_document/index.py:
breaks at the first successful call, then parses that response and raises
when the parsed embedding is empty; raises when every candidate fails. -/
def generate_embedding (call : String → CallResult) : Except Unit (List Int) :=
  match tryModels call models_to_try with
  | some v => if v = [] then Except.error () else Except.ok v
  | none => Except.error ()

/-- Modelled from the spec (section 4.2), for comparison with the two
source functions: the generator succeeds on the first candidate that
returns a non-empty vector, advancing past candidates that fail or yield
no vector. -/
def specFallback (call : String → CallResult) : List String → Option (List Int)
  | [] => none
  | m :: ms =>
    match call m with
    | CallResult.ok v => if v = [] then specFallback call ms else some v
    | CallResult.err => specFallback call ms

/-- Modelled from the spec (section 4.2): the claimed contract of the
embedding generator — the first non-empty success, and an
EmbeddingUnavailable error exactly when there is none. -/
def specEmbed (call : String → CallResult) : Except Unit (List Int) :=
  match specFallback call models_to_try with
  | some v => Except.ok v
  | none => Except.error ()

/-- One OpenSearch hit's `_source` fields plus its `_score`
(fields may be absent, hence `Option`); the score is abstract. -/
structure Hit where
  content : Option (List Char)
  file_name : Option (List Char)
  chunk_id : Option Int
  score : Int
  deriving DecidableEq

/-- The `DocumentSource` response model of src/app/main.py. -/
structure DocumentSource where
  file : List Char
  chunk : Int
  score : Int
  deriving DecidableEq

/-- The `QueryResponse` response model of src/app/main.py. -/
structure QueryResponse where
  answer : List Char
  sources : List DocumentSource
  deriving DecidableEq

/-- The exact no-results answer of the `/query` endpoint. -/
def noDocsAnswer : List Char :=
  ("I couldn't find any relevant documents to answer your question.").toList

/-- `search_similar_documents` from src/app/main.py: when the
`OPENSEARCH_ENDPOINT` configuration is empty, `get_opensearch_client`
returns `None` and the search returns `[]`; otherwise the outcome of the
single `client.search` call is returned, with any exception logged and
absorbed into `[]`. -/
def search_similar_documents (endpoint : String)
    (searchCall : Except (List Char) (List Hit)) : List Hit :=
  if endpoint = "" then []
  else
    match searchCall with
    | Except.ok hits => hits
    | Except.error _ => []

/-- The fixed prompt template of `generate_answer` in src/app/main.py. -/
def buildPrompt (question context : List Char) : List Char :=
  ("Based on the following context, answer the question. If the context doesn't contain enough information, say so.\n\nContext: ").toList
    ++ context ++ ("\n\nQuestion: ").toList ++ question ++ ("\n\nAnswer:").toList

/-- `generate_answer` from src/app/main.py: one generative-model call on
the built prompt; on any failure the error text is embedded into the
returned answer string instead of being raised. -/
def generate_answer (call : List Char → Except (List Char) (List Char))
    (question context : List Char) : List Char :=
  match call (buildPrompt question context) with
  | Except.ok t => t
  | Except.error e => ("Error generating answer: ").toList ++ e

/-- The `sources` list built by the `/query` endpoint: per enumerated hit,
missing `file_name` defaults to `"unknown"` and missing `chunk_id`
defaults to the enumeration index. -/
def buildSources : Nat → List Hit → List DocumentSource
  | _, [] => []
  | i, h :: rest =>
    { file := h.file_name.getD ("unknown").toList,
      chunk := h.chunk_id.getD (i : Int),
      score := h.score } :: buildSources (i + 1) rest

/-- The `/query` endpoint (`query_knowledge_base` in src/app/main.py):
embed the question (an embedding failure fails the request with HTTP
500), search, answer the fixed string on no hits, otherwise join the hit
contents into a context, generate an answer and map the hits to sources. -/
def query_knowledge_base (embedCall : String → CallResult) (endpoint : String)
    (searchCall : Except (List Char) (List Hit))
    (genCall : List Char → Except (List Char) (List Char))
    (question : List Char) : Except Unit QueryResponse :=
  match get_embedding embedCall with
  | Except.error _ => Except.error ()
  | Except.ok _ =>
    match search_similar_documents endpoint searchCall with
    | [] => Except.ok { answer := noDocsAnswer, sources := [] }
    | h :: hs =>
      Except.ok
        { answer :=
            generate_answer genCall question
              (List.intercalate ['\n', '\n'] ((h :: hs).map (fun x => x.content.getD []))),
          sources := buildSources 0 (h :: hs) }

/-- The placeholder text returned by `extract_text` for a `.pdf` file. -/
def pdfPlaceholder : List Char :=
  ("PDF text extraction would be implemented here with PyPDF2").toList

/-- The placeholder text returned by `extract_text` for a `.docx` file. -/
def docxPlaceholder : List Char :=
  ("DOCX text extraction would be implemented here with python-docx").toList

/-- The text prepended by `extract_text` when decoding raises. -/
def errExtract : List Char := ("Error extracting text: ").toList

/-- Python `str.lower()` on the file name. -/
def lowerList (s : List Char) : List Char := s.map Char.toLower

/-- Python `str.endswith(suf)`. -/
def hasSuffix (s suf : List Char) : Bool := s.reverse.take suf.length = suf.reverse

/-- Decimal digits of a chunk index, as Python `str(i)` renders it
(structural fuel keeps the definition kernel-reducible). -/
def natDigitsAux : Nat → Nat → List Char
  | 0, _ => []
  | fuel + 1, n =>
    if n < 10 then [Char.ofNat (48 + n)]
    else natDigitsAux fuel (n / 10) ++ [Char.ofNat (48 + n % 10)]

/-- Decimal rendering of a natural number, as Python `str(i)`. -/
def natDigits (n : Nat) : List Char := natDigitsAux (n + 1) n

/-- The deterministic OpenSearch document id `f"{source_file}_{chunk_index}"`. -/
def docKey (file : List Char) (i : Nat) : List Char := file ++ '_' :: natDigits i

/-- The durable unit written by `store_in_opensearch`:
`{content, file_name, chunk_id, embedding}`. -/
structure StoredDoc where
  content : List Char
  file_name : List Char
  chunk_id : Nat
  embedding : List Int
  deriving DecidableEq

/-- The vector store's visible state: its records, each under its id. -/
def Store : Type := List (List Char × StoredDoc)

/-- Modelled from the spec (sections 3 and 4.4): the upsert-by-id
semantics of the external OpenSearch index, which is not part of src/ —
writing under an id replaces any record already stored under that id. -/
def upsert (store : Store) (key : List Char) (d : StoredDoc) : Store :=
  store.filter (fun kv => !(kv.1 = key : Bool)) ++ [(key, d)]

/-- The records a store holds under one id. -/
def lookupKey (store : Store) (key : List Char) : Store :=
  store.filter (fun kv => (kv.1 = key : Bool))

/-- `store_in_opensearch` from src/lambda/process_document/index.py,
restricted to its write: index the document under the deterministic id. -/
def store_in_opensearch (content : List Char) (embedding : List Int)
    (source_file : List Char) (chunk_index : Nat) (store : Store) : Store :=
  upsert store (docKey source_file chunk_index)
    { content := content, file_name := source_file,
      chunk_id := chunk_index, embedding := embedding }

/-- One S3 record of the ingestion event, together with the outcomes of
the external calls its processing performs: the S3 download, the two
decodings of the downloaded bytes, and, per chunk index, the Bedrock
model calls and the OpenSearch write. -/
structure S3Record where
  key : List Char
  download : Except (List Char) Unit
  decodeUtf8 : Except (List Char) (List Char)
  decodeIgnore : List Char
  embedCall : Nat → String → CallResult
  storeResult : Nat → Except (List Char) Unit

/-- `extract_text` from src/lambda/process_document/index.py: dispatch on
the lowercased file suffix; a decode failure for `.txt` is caught and
turned into an error-text placeholder; `.pdf` and `.docx` return literal
placeholders; anything else decodes ignoring errors (which cannot raise). -/
def extract_text (r : S3Record) : List Char :=
  if hasSuffix (lowerList r.key) (".txt").toList then
    match r.decodeUtf8 with
    | Except.ok s => s
    | Except.error e => errExtract ++ e
  else if hasSuffix (lowerList r.key) (".pdf").toList then pdfPlaceholder
  else if hasSuffix (lowerList r.key) (".docx").toList then docxPlaceholder
  else r.decodeIgnore

/-- The body of the per-chunk loop of the handler: skip chunks whose
stripped length is under 50; embed, then store; a failure of either call
is caught and the chunk is skipped, leaving the store unchanged. -/
def processChunk (r : S3Record) (store : Store) (i : Nat) (ck : List Char) : Store :=
  if (strip ck).length < 50 then store
  else
    match generate_embedding (r.embedCall i) with
    | Except.error _ => store
    | Except.ok emb =>
      match r.storeResult i with
      | Except.error _ => store
      | Except.ok _ => store_in_opensearch ck emb r.key i store

/-- The handler's `for i, chunk in enumerate(chunks)` loop. -/
def processChunks (r : S3Record) : List (Nat × List Char) → Store → Store
  | [], store => store
  | (i, ck) :: rest, store => processChunks r rest (processChunk r store i ck)

/-- Processing of one S3 record by the handler: a download failure is
caught and the file is skipped; empty extracted text skips the file;
otherwise the text is chunked (with the default parameters) and each
enumerated chunk processed.  `none` reports a non-terminating
`chunk_text` call, which the given parameters in fact exclude. -/
def processFile (r : S3Record) (store : Store) : Option Store :=
  match r.download with
  | Except.error _ => some store
  | Except.ok _ =>
    if strip (extract_text r) = [] then some store
    else
      match chunk_text (extract_text r) 1000 100 with
      | none => none
      | some chunks => some (processChunks r chunks.enum store)

/-- The handler's `for record in event['Records']` loop over the batch. -/
def handlerFiles : List S3Record → Store → Option Store
  | [], store => some store
  | r :: rest, store =>
    match processFile r store with
    | none => none
    | some st => handlerFiles rest st

/-- The fields of the handler's success response that the claims mention. -/
structure HandlerResponse where
  statusCode : Nat
  processed_files : Nat
  deriving DecidableEq

/-- `handler` from src/lambda/process_document/index.py: process every
record of the batch, then return status 200 with `processed_files` set to
the number of records in the incoming event. -/
def handler (event : List S3Record) (store : Store) : Option (Store × HandlerResponse) :=
  match handlerFiles event store with
  | none => none
  | some st => some (st, { statusCode := 200, processed_files := event.length })

/-- A 16-character text (4 letters, a period, 11 letters) on which the
chunking loop with `chunk_size = 10`, `overlap = 5` repeats the same
window forever. -/
def c2Bad : List Char :=
  ['a', 'a', 'a', 'a', '.', 'a', 'a', 'a', 'a', 'a', 'a', 'a', 'a', 'a', 'a', 'a']

/-- A call oracle where the first candidate model fails and the others
succeed with the vector `[1, 2, 3]`. -/
def callOneFails : String → CallResult :=
  fun m => if m = "amazon.titan-embed-text-v1" then CallResult.err else CallResult.ok [1, 2, 3]

/-- A call oracle where the first candidate succeeds with an empty vector
and the remaining candidates fail. -/
def callEmptyVec : String → CallResult :=
  fun m => if m = "amazon.titan-embed-text-v1" then CallResult.ok [] else CallResult.err

/-- A call oracle where the first candidate succeeds with an empty vector
and the remaining candidates succeed with `[7]`. -/
def callEmptyFirst : String → CallResult :=
  fun m => if m = "amazon.titan-embed-text-v1" then CallResult.ok [] else CallResult.ok [7]

/-- A call oracle where every candidate succeeds with the vector `[1]`. -/
def embedOkCall : String → CallResult := fun _ => CallResult.ok [1]

/-- An uploaded `.pdf` object whose download, embedding and store calls
all succeed. -/
def pdfRecord : S3Record :=
  { key := ("doc.pdf").toList, download := Except.ok (), decodeUtf8 := Except.ok [],
    decodeIgnore := [], embedCall := fun _ _ => CallResult.ok [1],
    storeResult := fun _ => Except.ok () }

/-- An uploaded `.txt` object whose UTF-8 decoding fails. -/
def txtFailRecord : S3Record :=
  { key := ("a.txt").toList, download := Except.ok (),
    decodeUtf8 := Except.error (("bad utf8").toList), decodeIgnore := [],
    embedCall := fun _ _ => CallResult.err, storeResult := fun _ => Except.ok () }

/-- An uploaded object whose download, embedding and store calls all fail. -/
def failRec : S3Record :=
  { key := ("b.txt").toList, download := Except.error (("denied").toList),
    decodeUtf8 := Except.ok [], decodeIgnore := [],
    embedCall := fun _ _ => CallResult.err,
    storeResult := fun _ => Except.error (("down").toList) }

/-- Each loop iteration moves the window start up by at least one
position whenever the overlap leaves a margin of 99 below the chunk
size (`end` is at least `start + chunk_size - 98` in every branch). -/
theorem chunkEnd_progress (text : List Char) (cs ov start : Int) (h : ov + 99 ≤ cs) :
    start + 1 ≤ chunkEnd text cs start - ov := by
  unfold chunkEnd
  split
  · split <;> omega
  · omega

/-- With the overlap margin, the loop finishes as soon as the fuel
exceeds the distance from the window start to the end of the text. -/
theorem chunkLoop_isSome (text : List Char) (cs ov : Int) (h : ov + 99 ≤ cs) :
    ∀ (fuel : Nat) (start : Int) (acc : List (List Char)),
      (text.length : Int) - start < fuel → 1 ≤ fuel →
      (chunkLoop text cs ov fuel start acc).isSome := by
  intro fuel
  induction fuel with
  | zero => intro start acc h1 h2; omega
  | succ n ih =>
    intro start acc hlt _
    rw [chunkLoop]
    split
    · split
      · simp
      · have hp := chunkEnd_progress text cs ov start h
        apply ih <;> omega
    · simp

/-- With the overlap margin, `chunk_text`'s default fuel suffices. -/
theorem chunk_text_isSome (text : List Char) (cs ov : Int) (h : ov + 99 ≤ cs) :
    (chunk_text text cs ov).isSome := by
  unfold chunk_text
  split
  · simp
  · exact chunkLoop_isSome text cs ov h (text.length + 1) 0 [] (by omega) (by omega)

/-- Searching for a character the text does not contain yields `-1`. -/
theorem pyRfind_of_not_mem (s : List Char) (c : Char) (i j : Int) (h : c ∉ s) :
    pyRfind s c i j = -1 := by
  unfold pyRfind
  have hf : ((List.range s.length).filter
      (fun k => decide (pyAdj s.length i ≤ k) && decide (k < pyAdj s.length j)
        && decide (s.get? k = some c))) = [] := by
    rw [List.filter_eq_nil_iff]
    intro k _ hk
    simp only [Bool.and_eq_true, decide_eq_true_eq] at hk
    exact h (List.get?_mem hk.2)
  rw [hf]
  rfl

/-- `dropWhile` is the identity when no element satisfies the predicate. -/
theorem dropWhile_eq_self_of (p : Char → Bool) (l : List Char)
    (h : ∀ c ∈ l, p c = false) : l.dropWhile p = l := by
  cases l with
  | nil => rfl
  | cons a t =>
    rw [List.dropWhile_cons, h a (List.mem_cons_self a t)]
    simp

/-- Stripping text that holds no whitespace is the identity. -/
theorem strip_eq_self (s : List Char) (h : ∀ c ∈ s, isSpace c = false) : strip s = s := by
  unfold strip
  rw [dropWhile_eq_self_of _ _ h]
  rw [dropWhile_eq_self_of _ _ (fun c hc => h c (List.mem_reverse.mp hc))]
  exact List.reverse_reverse s

/-- Stripping text made of spaces only gives the empty string. -/
theorem strip_of_all_space (s : List Char) (h : ∀ c ∈ s, c = ' ') : strip s = [] := by
  have hd : s.dropWhile isSpace = [] := by
    rw [List.dropWhile_eq_nil_iff]
    intro x hx
    rw [h x hx]
    rfl
  unfold strip
  rw [hd]
  rfl

/-- One unfolding of the chunking loop at positive fuel. -/
theorem chunkLoop_step (text : List Char) (cs ov : Int) (fuel : Nat) (start : Int)
    (acc : List (List Char)) :
    chunkLoop text cs ov (fuel + 1) start acc =
      if start < (text.length : Int) then
        if (text.length : Int) ≤ chunkEnd text cs start - ov then
          some (chunkAppend acc (strip (pySlice text start (chunkEnd text cs start))))
        else
          chunkLoop text cs ov fuel (chunkEnd text cs start - ov)
            (chunkAppend acc (strip (pySlice text start (chunkEnd text cs start))))
      else some acc := rfl

/-- For a 1200-character text without a period, the first window does not
snap: its right edge is 1000. -/
theorem e5_end1 (text : List Char) (h1 : text.length = 1200) (hnd : '.' ∉ text) :
    chunkEnd text 1000 0 = 1000 := by
  unfold chunkEnd
  rw [pyRfind_of_not_mem text '.' 0 (0 + 1000) hnd, h1]
  norm_num

/-- For a 1200-character text, the second window reaches past the end:
its right edge is 1900. -/
theorem e5_end2 (text : List Char) (h1 : text.length = 1200) :
    chunkEnd text 1000 900 = 1900 := by
  unfold chunkEnd
  rw [h1]
  norm_num

/-- For a 1200-character text, the first window's slice is its first
1000 characters. -/
theorem e5_slice1 (text : List Char) (h1 : text.length = 1200) :
    pySlice text 0 1000 = text.take 1000 := by
  unfold pySlice pyAdj
  rw [h1]
  norm_num
  rfl

/-- For a 1200-character text, the second window's slice is everything
from offset 900 (the right edge clamps to the length). -/
theorem e5_slice2 (text : List Char) (h1 : text.length = 1200) :
    pySlice text 900 1900 = text.drop 900 := by
  unfold pySlice pyAdj
  rw [h1]
  norm_num
  rw [List.take_of_length_le (by rw [h1])]
  rfl

/-- A 1200-character text of spaces chunks to no chunks at all: both
windows strip to empty and are dropped. -/
theorem c5_all_space (text : List Char) (h1 : text.length = 1200)
    (hsp : ∀ c ∈ text, c = ' ') : chunk_text text 1000 100 = some [] := by
  have hnd : '.' ∉ text := by
    intro hmem
    exact absurd (hsp _ hmem) (by decide)
  have hs1 : strip (text.take 1000) = [] :=
    strip_of_all_space _ (fun c hc => hsp c (List.take_subset 1000 text hc))
  have hs2 : strip (text.drop 900) = [] :=
    strip_of_all_space _ (fun c hc => hsp c (List.drop_subset 900 text hc))
  unfold chunk_text
  rw [h1]
  norm_num
  rw [show (1201 : Nat) = 1200 + 1 from rfl, chunkLoop_step, e5_end1 text h1 hnd]
  rw [h1]
  norm_num
  rw [e5_slice1 text h1, hs1]
  rw [show chunkAppend [] [] = [] from rfl]
  rw [show (1200 : Nat) = 1199 + 1 from rfl, chunkLoop_step, e5_end2 text h1]
  rw [h1]
  norm_num
  rw [e5_slice2 text h1, hs2]
  rfl

/-- On `c2Bad` with `chunk_size = 10`, `overlap = 5` the loop is stuck at
start 0: the window snaps to the period at index 4, the next start is
`5 - 5 = 0` again, for any amount of fuel. -/
theorem c2Bad_loop_none (fuel : Nat) : ∀ acc, chunkLoop c2Bad 10 5 fuel 0 acc = none := by
  induction fuel with
  | zero => intro acc; rfl
  | succ n ih =>
    intro acc
    have hstep : chunkLoop c2Bad 10 5 (n + 1) 0 acc
        = chunkLoop c2Bad 10 5 n 0 (acc ++ [['a', 'a', 'a', 'a', '.']]) := rfl
    rw [hstep]
    exact ih _

/-- Each candidate model either fails or returns a non-empty vector: then
the shared fallback loop agrees with the spec's contract, and every
returned vector is non-empty. -/
theorem tryModels_spec (call : String → CallResult) :
    ∀ ms : List String, (∀ m ∈ ms, call m ≠ CallResult.ok []) →
      tryModels call ms = specFallback call ms ∧
        ∀ v, tryModels call ms = some v → v ≠ [] := by
  intro ms
  induction ms with
  | nil =>
    intro _
    refine ⟨rfl, ?_⟩
    intro v hv
    exact Option.noConfusion hv
  | cons m ms ih =>
    intro h
    have hm := h m (List.mem_cons_self m ms)
    obtain ⟨ih1, ih2⟩ := ih (fun x hx => h x (List.mem_cons_of_mem m hx))
    cases hc : call m with
    | err =>
      refine ⟨?_, ?_⟩
      · simp only [tryModels, specFallback, hc]
        exact ih1
      · intro v hv
        simp only [tryModels, hc] at hv
        exact ih2 v hv
    | ok v =>
      have hv : v ≠ [] := by
        intro he
        rw [he] at hc
        exact hm hc
      refine ⟨?_, ?_⟩
      · simp only [tryModels, specFallback, hc, if_neg hv]
      · intro w hw
        simp only [tryModels, hc, Option.some.injEq] at hw
        rw [← hw]
        exact hv

/-- An upsert leaves exactly the written record under the written key. -/
theorem lookup_upsert (store : Store) (key : List Char) (d : StoredDoc) :
    lookupKey (upsert store key d) key = [(key, d)] := by
  unfold lookupKey upsert
  rw [List.filter_append]
  have h1 : (store.filter (fun kv => !(kv.1 = key : Bool))).filter
      (fun kv => (kv.1 = key : Bool)) = [] := by
    rw [List.filter_eq_nil_iff]
    intro kv hkv
    have hmem := List.of_mem_filter hkv
    simp at hmem ⊢
    exact hmem
  rw [h1]
  simp

/-- Processing one file always finishes: every external failure is
caught, and the default chunking parameters terminate. -/
theorem processFile_total (r : S3Record) (store : Store) :
    ∃ st, processFile r store = some st := by
  unfold processFile
  cases hd : r.download with
  | error e => exact ⟨store, rfl⟩
  | ok u =>
    by_cases hs : strip (extract_text r) = []
    · rw [if_pos hs]
      exact ⟨store, rfl⟩
    · rw [if_neg hs]
      obtain ⟨chunks, hch⟩ :=
        Option.isSome_iff_exists.mp (chunk_text_isSome (extract_text r) 1000 100 (by norm_num))
      rw [hch]
      exact ⟨_, rfl⟩

/-- Processing a batch always finishes. -/
theorem handlerFiles_total : ∀ (ev : List S3Record) (store : Store),
    ∃ st, handlerFiles ev store = some st := by
  intro ev
  induction ev with
  | nil => intro store; exact ⟨store, rfl⟩
  | cons r rest ih =>
    intro store
    obtain ⟨st1, h1⟩ := processFile_total r store
    obtain ⟨st2, h2⟩ := ih st1
    refine ⟨st2, ?_⟩
    simp only [handlerFiles]
    rw [h1]
    exact h2

/-- The handler always returns its success response, whose
`processed_files` is the number of records in the incoming event. -/
theorem handler_total (event : List S3Record) (store : Store) :
    ∃ st, handler event store
      = some (st, { statusCode := 200, processed_files := event.length }) := by
  obtain ⟨st, h⟩ := handlerFiles_total event store
  refine ⟨st, ?_⟩
  unfold handler
  rw [h]

/-- A chunk whose embedding fails leaves the store unchanged. -/
theorem processChunk_skip_embed (r : S3Record) (store : Store) (i : Nat) (ck : List Char)
    (h : generate_embedding (r.embedCall i) = Except.error ()) :
    processChunk r store i ck = store := by
  unfold processChunk
  by_cases hlen : (strip ck).length < 50
  · rw [if_pos hlen]
  · rw [if_neg hlen, h]

/-- A chunk whose store write fails leaves the store unchanged. -/
theorem processChunk_skip_store (r : S3Record) (store : Store) (i : Nat) (ck : List Char)
    (e : List Char) (h : r.storeResult i = Except.error e) :
    processChunk r store i ck = store := by
  unfold processChunk
  by_cases hlen : (strip ck).length < 50
  · rw [if_pos hlen]
  · rw [if_neg hlen]
    cases he : generate_embedding (r.embedCall i) with
    | error u => rfl
    | ok emb => rw [h]

/-- Claim C1, counterexample: the claim fails on the code at concrete
call oracles.  When the first candidate's call succeeds with an empty
vector and the rest fail, `get_embedding` (query service) silently
returns the empty vector where the claimed contract demands an
EmbeddingUnavailable error; when the first candidate's call succeeds with
an empty vector and a later candidate would return `[7]`,
`generate_embedding` (ingestion) raises instead of returning `[7]`. -/
theorem embedding_fallback_empty_vector_counter :
    get_embedding callEmptyVec = Except.ok []
      ∧ specEmbed callEmptyVec = Except.error ()
      ∧ generate_embedding callEmptyFirst = Except.error ()
      ∧ specEmbed callEmptyFirst = Except.ok [7] :=
  ⟨rfl, rfl, rfl, rfl⟩

/-- Claim C1 (amended): provided no candidate's call succeeds with an
empty vector, both embedding generators return the vector of the first
candidate whose call succeeds with a non-empty vector, advancing past
each candidate whose call fails, and raise an error if and only if every
candidate's call fails — that is, both equal the spec's contract
`specEmbed`. -/
theorem embedding_fallback_first_nonempty (call : String → CallResult)
    (h : ∀ m ∈ models_to_try, call m ≠ CallResult.ok []) :
    get_embedding call = specEmbed call ∧ generate_embedding call = specEmbed call := by
  obtain ⟨h1, h2⟩ := tryModels_spec call models_to_try h
  constructor
  · unfold get_embedding specEmbed
    rw [h1]
  · unfold generate_embedding specEmbed
    rw [h1]
    cases hs : specFallback call models_to_try with
    | none => rfl
    | some v =>
      have hv : v ≠ [] := h2 v (by rw [h1, hs])
      simp [hv]

/-- Claim C1, witness: with candidate A failing and candidate B
succeeding with `[1, 2, 3]`, both generators follow the contract. -/
theorem embedding_fallback_first_nonempty_witness :
    get_embedding callOneFails = specEmbed callOneFails
      ∧ generate_embedding callOneFails = specEmbed callOneFails :=
  embedding_fallback_first_nonempty callOneFails (by decide)

/-- Claim C2, counterexample: the parameters `chunk_size = 10`,
`overlap = 5` satisfy `0 ≤ overlap < chunk_size`, yet on the 16-character
text `c2Bad` the chunking loop never terminates (the window snaps to the
period at index 4 and the next start is again 0). -/
theorem chunking_nontermination_counter :
    (0 : Int) ≤ 5 ∧ (5 : Int) < 10 ∧ ¬ chunkTerminates c2Bad 10 5 := by
  refine ⟨by norm_num, by norm_num, ?_⟩
  intro h
  rcases h with h | ⟨fuel, hs⟩
  · revert h
    decide
  · rw [c2Bad_loop_none fuel []] at hs
    exact Bool.noConfusion hs

/-- Claim C2 (amended): for every text and every parameter pair with
`0 ≤ overlap` and `overlap + 99 ≤ chunk_size` (rather than merely
`overlap < chunk_size`; the margin of 99 accounts for the 100-character
sentence-snap window), the chunking function terminates and every window
start is strictly below the next one. -/
theorem chunking_terminates_of_overlap_margin (text : List Char) (cs ov start : Int)
    (_h0 : 0 ≤ ov) (h : ov + 99 ≤ cs) :
    (chunk_text text cs ov).isSome ∧ chunkTerminates text cs ov ∧
      start < nextStart text cs ov start := by
  refine ⟨chunk_text_isSome text cs ov h, ?_, ?_⟩
  · by_cases hl : (text.length : Int) ≤ cs
    · exact Or.inl hl
    · exact Or.inr ⟨text.length + 1,
        chunkLoop_isSome text cs ov h (text.length + 1) 0 [] (by omega) (by omega)⟩
  · have := chunkEnd_progress text cs ov start h
    unfold nextStart
    omega

/-- Claim C2, witness: the amended guarantee evaluated at a concrete
text, the default parameters and start 0. -/
theorem chunking_terminates_of_overlap_margin_witness :
    (chunk_text ['a'] 1000 100).isSome ∧ chunkTerminates ['a'] 1000 100 ∧
      (0 : Int) < nextStart ['a'] 1000 100 0 :=
  chunking_terminates_of_overlap_margin ['a'] 1000 100 0 (by norm_num) (by norm_num)

/-- Claim C3, counterexample: on the 3-character text `" a "` (length at
most the chunk size 1000) the chunking function returns the input text
as-is, not its trimmed form: the short-text path performs no strip. -/
theorem chunk_short_text_not_trimmed_counter :
    chunk_text [' ', 'a', ' '] 1000 100 = some [[' ', 'a', ' ']]
      ∧ strip [' ', 'a', ' '] ≠ [' ', 'a', ' '] := by
  constructor
  · rfl
  · decide

/-- Claim C3 (amended): for every text whose length is at most the chunk
size, the chunking function returns exactly one chunk, and that chunk
equals the input text unchanged (no whitespace is trimmed on this path). -/
theorem chunk_short_text_single_chunk (text : List Char) (cs ov : Int)
    (h : (text.length : Int) ≤ cs) : chunk_text text cs ov = some [text] := by
  unfold chunk_text
  rw [if_pos h]

/-- Claim C3, witness: the amended statement evaluated on a concrete
short text containing whitespace. -/
theorem chunk_short_text_single_chunk_witness :
    chunk_text [' ', 'a'] 1000 100 = some [[' ', 'a']] :=
  chunk_short_text_single_chunk [' ', 'a'] 1000 100 (by decide)

/-- Claim C4 (confirmed): whenever the question's embedding succeeds and
the similarity search yields no hits, the `/query` endpoint returns
exactly the answer string "I couldn't find any relevant documents to
answer your question." with an empty sources list; moreover with an
unconfigured (empty) vector-store endpoint the search returns empty
results rather than failing, whatever the search call would do. -/
theorem query_no_hits_fixed_answer (embedCall : String → CallResult) (endpoint : String)
    (searchCall : Except (List Char) (List Hit))
    (genCall : List Char → Except (List Char) (List Char))
    (question : List Char) (v : List Int)
    (hemb : get_embedding embedCall = Except.ok v)
    (hsearch : search_similar_documents endpoint searchCall = []) :
    query_knowledge_base embedCall endpoint searchCall genCall question
        = Except.ok { answer := noDocsAnswer, sources := [] }
      ∧ search_similar_documents "" searchCall = [] := by
  constructor
  · unfold query_knowledge_base
    rw [hemb, hsearch]
  · rfl

/-- Claim C4, witness: a query against an unconfigured store returns the
fixed no-documents response. -/
theorem query_no_hits_fixed_answer_witness :
    query_knowledge_base embedOkCall "" (Except.ok []) (fun _ => Except.ok []) (("q").toList)
        = Except.ok { answer := noDocsAnswer, sources := [] }
      ∧ search_similar_documents "" (Except.ok []) = [] :=
  query_no_hits_fixed_answer embedOkCall "" (Except.ok []) (fun _ => Except.ok [])
    (("q").toList) [1] rfl rfl

/-- Claim C5, counterexample: a 1200-character plain-text input made of
spaces yields zero chunks under `chunk_size = 1000`, `overlap = 100`,
not the claimed exactly two (both windows strip to empty and are
dropped). -/
theorem chunk_1200_all_space_counter :
    chunk_text (List.replicate 1200 ' ') 1000 100 = some []
      ∧ (List.replicate 1200 ' ').length = 1200 :=
  ⟨c5_all_space (List.replicate 1200 ' ') (List.length_replicate 1200 ' ')
      (fun _ hc => List.eq_of_mem_replicate hc),
    List.length_replicate 1200 ' '⟩

/-- Claim C5 (amended): for every 1200-character text containing no
period and no whitespace, chunking with `chunk_size = 1000`,
`overlap = 100` yields exactly the two chunks `text[0:1000]` and
`text[900:1200]` — so the second chunk's start offset is 900, which is at
least 900.  (A period after offset 900 can snap the first window and
start the second chunk as early as offset 802; whitespace-only windows
are dropped entirely, hence both exclusions.) -/
theorem chunk_1200_two_chunks (text : List Char) (h1 : text.length = 1200)
    (hnd : '.' ∉ text) (hsp : ∀ c ∈ text, isSpace c = false) :
    chunk_text text 1000 100 = some [text.take 1000, text.drop 900] := by
  have htake : strip (text.take 1000) = text.take 1000 :=
    strip_eq_self _ (fun c hc => hsp c (List.take_subset 1000 text hc))
  have hdrop : strip (text.drop 900) = text.drop 900 :=
    strip_eq_self _ (fun c hc => hsp c (List.drop_subset 900 text hc))
  have htne : text.take 1000 ≠ [] := by
    intro hc
    have := congrArg List.length hc
    simp [h1] at this
  have hdne : text.drop 900 ≠ [] := by
    intro hc
    have := congrArg List.length hc
    simp [h1] at this
  unfold chunk_text
  rw [h1]
  norm_num
  rw [show (1201 : Nat) = 1200 + 1 from rfl, chunkLoop_step, e5_end1 text h1 hnd]
  rw [h1]
  norm_num
  rw [e5_slice1 text h1, htake]
  rw [show chunkAppend [] (text.take 1000) = [text.take 1000] from by
    rw [chunkAppend, if_neg htne]; rfl]
  rw [show (1200 : Nat) = 1199 + 1 from rfl, chunkLoop_step, e5_end2 text h1]
  rw [h1]
  norm_num
  rw [e5_slice2 text h1, hdrop]
  rw [chunkAppend, if_neg hdne]
  rfl

/-- Claim C5, witness: the amended statement evaluated on 1200 letters. -/
theorem chunk_1200_two_chunks_witness :
    chunk_text (List.replicate 1200 'a') 1000 100
      = some [(List.replicate 1200 'a').take 1000, (List.replicate 1200 'a').drop 900] :=
  chunk_1200_two_chunks (List.replicate 1200 'a') (List.length_replicate 1200 'a')
    (fun hc => absurd (List.eq_of_mem_replicate hc) (by decide))
    (fun c hc => by rw [List.eq_of_mem_replicate hc]; rfl)

/-- Claim C6, counterexample: an uploaded `.pdf` file's extraction
recovers to the 57-character placeholder text, which is not skipped
upstream: with succeeding embedding and store calls it becomes an indexed
record whose content is the placeholder itself. -/
theorem extraction_placeholder_indexed_counter :
    processFile pdfRecord []
        = some [(docKey (("doc.pdf").toList) 0,
            { content := pdfPlaceholder, file_name := ("doc.pdf").toList,
              chunk_id := 0, embedding := [1] })]
      ∧ 50 ≤ (strip pdfPlaceholder).length := by
  constructor
  · rfl
  · decide

/-- Claim C6 (amended): text extraction never raises — a `.txt` decode
failure recovers to an error-text placeholder, and the unimplemented
`.pdf` and `.docx` formats recover to literal placeholders; but recovered
text is skipped upstream only when its trimmed length is under 50
characters (in particular when empty).  The PDF and DOCX placeholders
strip to 57 and 63 characters, so they do become indexed records. -/
theorem extraction_recovery_and_skip :
    (∀ (r : S3Record) (e : List Char),
        hasSuffix (lowerList r.key) ((".txt").toList) = true →
        r.decodeUtf8 = Except.error e →
        extract_text r = errExtract ++ e)
      ∧ (∀ r : S3Record,
          hasSuffix (lowerList r.key) ((".txt").toList) = false →
          hasSuffix (lowerList r.key) ((".pdf").toList) = true →
          extract_text r = pdfPlaceholder)
      ∧ (∀ r : S3Record,
          hasSuffix (lowerList r.key) ((".txt").toList) = false →
          hasSuffix (lowerList r.key) ((".pdf").toList) = false →
          hasSuffix (lowerList r.key) ((".docx").toList) = true →
          extract_text r = docxPlaceholder)
      ∧ (strip pdfPlaceholder).length = 57
      ∧ (strip docxPlaceholder).length = 63
      ∧ ∀ (r : S3Record) (store : Store),
          (extract_text r).length ≤ 1000 →
          (strip (extract_text r)).length < 50 →
          processFile r store = some store := by
  refine ⟨?_, ?_, ?_, by decide, by decide, ?_⟩
  · intro r e h1 h2
    unfold extract_text
    rw [if_pos h1, h2]
  · intro r h1 h2
    have h1n : ¬ hasSuffix (lowerList r.key) ((".txt").toList) = true := by
      rw [h1]
      exact Bool.false_ne_true
    unfold extract_text
    rw [if_neg h1n, if_pos h2]
  · intro r h1 h2 h3
    have h1n : ¬ hasSuffix (lowerList r.key) ((".txt").toList) = true := by
      rw [h1]
      exact Bool.false_ne_true
    have h2n : ¬ hasSuffix (lowerList r.key) ((".pdf").toList) = true := by
      rw [h2]
      exact Bool.false_ne_true
    unfold extract_text
    rw [if_neg h1n, if_neg h2n, if_pos h3]
  · intro r store hlen hshort
    unfold processFile
    cases hd : r.download with
    | error e => rfl
    | ok u =>
      by_cases hs : strip (extract_text r) = []
      · rw [if_pos hs]
      · rw [if_neg hs]
        have hct : chunk_text (extract_text r) 1000 100 = some [extract_text r] := by
          unfold chunk_text
          rw [if_pos (by exact_mod_cast hlen)]
        rw [hct]
        show some (processChunks r [(0, extract_text r)] store) = some store
        simp only [processChunks]
        unfold processChunk
        rw [if_pos hshort]

/-- Claim C6, witness: a failed `.txt` decode recovers to the error
placeholder; a `.pdf` extracts to its placeholder; and the short
recovered error text (31 characters) is skipped, leaving the store
unchanged. -/
theorem extraction_recovery_and_skip_witness :
    extract_text txtFailRecord = errExtract ++ ("bad utf8").toList
      ∧ extract_text pdfRecord = pdfPlaceholder
      ∧ processFile txtFailRecord [] = some [] :=
  ⟨extraction_recovery_and_skip.1 txtFailRecord (("bad utf8").toList) (by decide) rfl,
    extraction_recovery_and_skip.2.1 pdfRecord (by decide) (by decide),
    extraction_recovery_and_skip.2.2.2.2.2 txtFailRecord [] (by decide) (by decide)⟩

/-- Claim C7 (confirmed): ingestion isolates failures — a record whose
download fails is skipped while the rest of the batch is processed
exactly as without it; a chunk whose embedding fails, or whose store
write fails, is skipped while the remaining chunks of the file are
processed exactly as without it; and the handler still returns its
status-200 success response. -/
theorem ingestion_failure_isolation :
    (∀ (r : S3Record) (rest : List S3Record) (store : Store) (e : List Char),
        r.download = Except.error e →
        handlerFiles (r :: rest) store = handlerFiles rest store)
      ∧ (∀ (r : S3Record) (i : Nat) (ck : List Char) (rest : List (Nat × List Char))
          (store : Store),
          generate_embedding (r.embedCall i) = Except.error () →
          processChunks r ((i, ck) :: rest) store = processChunks r rest store)
      ∧ (∀ (r : S3Record) (i : Nat) (ck : List Char) (rest : List (Nat × List Char))
          (store : Store) (e : List Char),
          r.storeResult i = Except.error e →
          processChunks r ((i, ck) :: rest) store = processChunks r rest store)
      ∧ ∀ (event : List S3Record) (store : Store),
          ∃ st, handler event store
            = some (st, { statusCode := 200, processed_files := event.length }) := by
  refine ⟨?_, ?_, ?_, handler_total⟩
  · intro r rest store e h
    simp only [handlerFiles, processFile, h]
  · intro r i ck rest store h
    simp only [processChunks, processChunk_skip_embed r store i ck h]
  · intro r i ck rest store e h
    simp only [processChunks, processChunk_skip_store r store i ck e h]

/-- Claim C7, witness: a record whose download, embedding and store
calls all fail is skipped at each granularity, and the handler still
reports success for the one-record batch. -/
theorem ingestion_failure_isolation_witness :
    handlerFiles [failRec] [] = handlerFiles [] []
      ∧ processChunks failRec [(0, ("c").toList)] [] = processChunks failRec [] []
      ∧ processChunks failRec [(1, ("d").toList)] [] = processChunks failRec [] []
      ∧ ∃ st, handler [failRec] []
          = some (st, { statusCode := 200, processed_files := 1 }) :=
  ⟨ingestion_failure_isolation.1 failRec [] [] (("denied").toList) rfl,
    ingestion_failure_isolation.2.1 failRec 0 (("c").toList) [] [] rfl,
    ingestion_failure_isolation.2.2.1 failRec 1 (("d").toList) [] [] (("down").toList) rfl,
    ingestion_failure_isolation.2.2.2 [failRec] []⟩

/-- Claim C8 (confirmed): every store operation writes under the
deterministic key `f"{file_name}_{chunk_id}"`, and upserting two records
with the same `(file_name, chunk_id)` leaves exactly one stored record
under that key, whose content is that of the last write. -/
theorem store_upsert_last_write_wins (store : Store) (c1 c2 : List Char)
    (e1 e2 : List Int) (f : List Char) (i : Nat) :
    store_in_opensearch c2 e2 f i store
        = upsert store (docKey f i)
            { content := c2, file_name := f, chunk_id := i, embedding := e2 }
      ∧ lookupKey (store_in_opensearch c2 e2 f i (store_in_opensearch c1 e1 f i store))
          (docKey f i)
        = [(docKey f i, { content := c2, file_name := f, chunk_id := i, embedding := e2 })] :=
  ⟨rfl, lookup_upsert _ _ _⟩

/-- Claim C9 (confirmed): when the generative-model call fails, the
answer generator returns the synthetic string "Error generating answer: "
followed by the error text as the answer, and a query whose embedding
succeeded always returns a success response, whatever the generation
call does. -/
theorem generation_failure_masked :
    (∀ (call : List Char → Except (List Char) (List Char)) (q c e : List Char),
        call (buildPrompt q c) = Except.error e →
        generate_answer call q c = ("Error generating answer: ").toList ++ e)
      ∧ ∀ (embedCall : String → CallResult) (endpoint : String)
          (searchCall : Except (List Char) (List Hit))
          (genCall : List Char → Except (List Char) (List Char))
          (question : List Char) (v : List Int),
          get_embedding embedCall = Except.ok v →
          ∃ r, query_knowledge_base embedCall endpoint searchCall genCall question
            = Except.ok r := by
  constructor
  · intro call q c e h
    unfold generate_answer
    rw [h]
  · intro embedCall endpoint searchCall genCall question v h
    unfold query_knowledge_base
    rw [h]
    cases search_similar_documents endpoint searchCall with
    | nil => exact ⟨_, rfl⟩
    | cons hh t => exact ⟨_, rfl⟩

/-- Claim C9, witness: a failing generation call produces the synthetic
error answer, and the surrounding query request still succeeds. -/
theorem generation_failure_masked_witness :
    generate_answer (fun _ => Except.error (("boom").toList)) (("q").toList) (("c").toList)
        = ("Error generating answer: ").toList ++ ("boom").toList
      ∧ ∃ r, query_knowledge_base embedOkCall "e" (Except.ok [])
          (fun _ => Except.error (("boom").toList)) (("q").toList) = Except.ok r :=
  ⟨generation_failure_masked.1 _ _ _ _ rfl,
    generation_failure_masked.2 embedOkCall "e" (Except.ok [])
      (fun _ => Except.error (("boom").toList)) (("q").toList) [1] rfl⟩

/-- Claim C10 (confirmed): for every batch and store, and whatever the
per-file and per-chunk call outcomes, the handler's success response
reports `statusCode` 200 and `processed_files` equal to the total number
of records in the incoming event — independent of how many files or
chunks were actually indexed. -/
theorem handler_reports_event_length (event : List S3Record) (store : Store) :
    ∃ st, handler event store
      = some (st, { statusCode := 200, processed_files := event.length }) :=
  handler_total event store
